import Mathlib

/-!
Shallow embedding of `src/server.py`, a minimal MCP server exposing six OCI
Data Science operations as tools.  Each handler is a thin pass-through to the
OCI / ADS SDK; the SDK itself is modelled abstractly by a `Backend` record
whose fields describe the responses the SDK calls would produce, each of which
may fail with an exception.  Handlers are translated as pure functions that
return the handler's result (`Except` models python raising), the list of log
lines the handler emits (with the output stream each line goes to: `logger`
lines configured by `logging.basicConfig` go to standard error, `print` goes
to standard output), and, for the creating handlers, the trace of creation
requests issued to the SDK.
-/

/-- A python exception as the handlers see it: an exception type and its
message (`str(e)` in the `print` diagnostics formats as the message). -/
structure OCIError where
  exc_type : String
  msg : String
deriving DecidableEq, Repr

/-- Output stream a log line is written to. -/
inductive OutStream
  | stdout
  | stderr
deriving DecidableEq, Repr

/-- One emitted log line together with its stream. -/
structure LogLine where
  stream : OutStream
  text : String
deriving DecidableEq, Repr

/-- A project record as returned by `ProjectCatalog.list_projects()`:
the fields the server reads (`.id`, `.display_name`, `.description`). -/
structure ProjectRecord where
  id : String
  display_name : String
  description : String
deriving DecidableEq, Repr

/-- The project object returned by `ProjectCatalog.create_project(...)`.
Its `display_name`, `description` and `compartment_id` attributes are listed
explicitly; `extra` holds its remaining attributes abstractly. -/
structure CreatedProject where
  display_name : String
  description : String
  compartment_id : String
  extra : List (String × String)
deriving DecidableEq, Repr

/-- A model record as returned by `ModelCatalog.list_models()` (opaque: the
server only takes the length of the listing). -/
structure ModelRecord where
  id : String
deriving DecidableEq, Repr

/-- Abstract handle for `ads.catalog.project.ProjectCatalog(compartment_id)`:
the result of its `list_projects()` call, the value of `len(catalog)` (which
the source reads separately from the listing), and the behaviour of its
`create_project` method. -/
structure ProjectCatalog where
  list_projects : Except OCIError (List ProjectRecord)
  len : Nat
  create_project : String → String → String → Except OCIError CreatedProject

/-- Abstract handle for `ads.catalog.model.ModelCatalog(compartment_id)`. -/
structure ModelCatalog where
  list_models : Except OCIError (List ModelRecord)

/-- The resource-principal signer returned by
`oci.auth.signers.get_resource_principals_signer()`. -/
structure Signer where
  compartment_id : String
deriving DecidableEq, Repr

/-- `oci.data_science.models.NotebookSessionShapeConfigDetails`. -/
structure NotebookSessionShapeConfigDetails where
  ocpus : Nat
  memory_in_gbs : Nat
deriving DecidableEq, Repr

/-- `oci.data_science.models.NotebookSessionConfigDetails`. -/
structure NotebookSessionConfigDetails where
  shape : String
  block_storage_size_in_gbs : Nat
  notebook_session_shape_config_details : NotebookSessionShapeConfigDetails
deriving DecidableEq, Repr

/-- `oci.data_science.models.CreateNotebookSessionDetails`: the request body
the handler builds and passes to `ds_client.create_notebook_session`. -/
structure CreateNotebookSessionDetails where
  project_id : String
  compartment_id : String
  display_name : String
  notebook_session_config_details : NotebookSessionConfigDetails
deriving DecidableEq, Repr

/-- The `.data` of a create-notebook-session response: the fields the handler
reads when shaping its result dictionary. -/
structure NotebookSessionData where
  notebook_session_url : String
  display_name : String
  time_created : String
  notebook_session_config_details : NotebookSessionConfigDetails
deriving DecidableEq, Repr

/-- One `create_project` request issued to the SDK, with the keyword
arguments the source passes (`display_name`, `description`, `compartment_id`). -/
structure CreateProjectCall where
  display_name : String
  description : String
  compartment_id : String
deriving DecidableEq, Repr

/-- The SDK / cloud service, abstracted: what each SDK entry point the server
uses would return (or the exception it would raise). -/
structure Backend where
  projectCatalogNew : String → Except OCIError ProjectCatalog
  modelCatalogNew : String → Except OCIError ModelCatalog
  get_resource_principals_signer : Except OCIError Signer
  create_notebook_session : CreateNotebookSessionDetails → Except OCIError NotebookSessionData

/-- Value type for the heterogeneous python dict built by
`create_notebook_session` (`time_created` is stringly modelled). -/
inductive PyValue
  | str (s : String)
  | config (c : NotebookSessionConfigDetails)
deriving DecidableEq, Repr

/-- `get_compartment_id` (src/server.py lines 31-45): obtains the
resource-principal signer, builds an `IdentityClient` (constructed but never
used; its constructor performs no network call, so it is elided), and returns
`signer.compartment_id`.  There is no try/except, so a signer failure
propagates with no log line. -/
def get_compartment_id (b : Backend) : Except OCIError String × List LogLine :=
  match b.get_resource_principals_signer with
  | .error e => (.error e, [])
  | .ok signer => (.ok signer.compartment_id, [])

/-- `project_count` (src/server.py lines 48-68): logs an info line (stderr via
`logging`), constructs a `ProjectCatalog`, calls `list_projects()` (result
bound but unused), and returns `len(project_catalog)`.  On any exception it
`print`s one diagnostic (stdout) and re-raises. -/
def project_count (b : Backend) (compartment_id : String) :
    Except OCIError Nat × List LogLine :=
  let pre : List LogLine :=
    [⟨OutStream.stderr, "calling project_count tool successfully"⟩]
  match b.projectCatalogNew compartment_id with
  | .error e =>
      (.error e, pre ++ [⟨OutStream.stdout, "Error getting project count: " ++ e.msg⟩])
  | .ok project_catalog =>
      match project_catalog.list_projects with
      | .error e =>
          (.error e, pre ++ [⟨OutStream.stdout, "Error getting project count: " ++ e.msg⟩])
      | .ok _projects =>
          (.ok project_catalog.len, pre)

/-- `res.to_dataframe().to_dict()` on the created project: a mapping carrying
all of the created project's fields (the pandas row/column nesting is
flattened; every field of the project appears in the mapping). -/
def CreatedProject.to_dataframe_to_dict (res : CreatedProject) : List (String × String) :=
  [("display_name", res.display_name),
   ("description", res.description),
   ("compartment_id", res.compartment_id)] ++ res.extra

/-- `create_project` (src/server.py lines 71-90): constructs a
`ProjectCatalog`, issues one `create_project` call with the three caller
values, and returns `res.to_dataframe().to_dict()`.  On any exception it
`print`s one diagnostic (stdout; the source reuses the text
"Error getting project count") and re-raises.  The third component is the
trace of creation requests issued to the SDK. -/
def create_project (b : Backend)
    (project_name project_description compartment_id : String) :
    Except OCIError (List (String × String)) × List LogLine × List CreateProjectCall :=
  match b.projectCatalogNew compartment_id with
  | .error e =>
      (.error e, [⟨OutStream.stdout, "Error getting project count: " ++ e.msg⟩], [])
  | .ok project_catalog =>
      match project_catalog.create_project project_name project_description compartment_id with
      | .error e =>
          (.error e, [⟨OutStream.stdout, "Error getting project count: " ++ e.msg⟩],
           [⟨project_name, project_description, compartment_id⟩])
      | .ok res =>
          (.ok res.to_dataframe_to_dict, [],
           [⟨project_name, project_description, compartment_id⟩])

/-- `model_count` (src/server.py lines 92-110): constructs a `ModelCatalog`,
calls `list_models()`, and returns `len(models)` — the length of the listing.
On any exception it `print`s one diagnostic (stdout) and re-raises. -/
def model_count (b : Backend) (compartment_id : String) :
    Except OCIError Nat × List LogLine :=
  match b.modelCatalogNew compartment_id with
  | .error e =>
      (.error e, [⟨OutStream.stdout, "Error getting model count: " ++ e.msg⟩])
  | .ok model_catalog =>
      match model_catalog.list_models with
      | .error e =>
          (.error e, [⟨OutStream.stdout, "Error getting model count: " ++ e.msg⟩])
      | .ok models =>
          (.ok models.length, [])

/-- `pd.DataFrame({...}).to_dict(records)` over the three equal-length column
lists built by the `list_projects` loop: row i is the record with the i-th
entry of each column. -/
def buildRecords : List String → List String → List String → List (List (String × String))
  | i :: is, n :: ns, d :: ds =>
      [("project_id", i), ("project_name", n), ("project_description", d)]
        :: buildRecords is ns ds
  | _, _, _ => []

/-- `list_projects` (src/server.py lines 112-138): constructs a
`ProjectCatalog`, calls `list_projects()`, loops over the listing appending
`.id`, `.display_name`, `.description` to three column lists, and returns the
DataFrame records built from them.  On any exception it `print`s one
diagnostic (stdout) and re-raises. -/
def list_projects (b : Backend) (compartment_id : String) :
    Except OCIError (List (List (String × String))) × List LogLine :=
  match b.projectCatalogNew compartment_id with
  | .error e =>
      (.error e, [⟨OutStream.stdout, "Error getting project list: " ++ e.msg⟩])
  | .ok project_catalog =>
      match project_catalog.list_projects with
      | .error e =>
          (.error e, [⟨OutStream.stdout, "Error getting project list: " ++ e.msg⟩])
      | .ok projects =>
          let project_id := projects.map (fun p => p.id)
          let project_name := projects.map (fun p => p.display_name)
          let project_desc := projects.map (fun p => p.description)
          (.ok (buildRecords project_id project_name project_desc), [])

/-- The hardcoded `NotebookSessionConfigDetails(shape="VM.Standard.E4.Flex",
block_storage_size_in_gbs=50, ...(ocpus=4, memory_in_gbs=16))` literal built
at src/server.py lines 161-166. -/
def fixedSessionConfig : NotebookSessionConfigDetails :=
  { shape := "VM.Standard.E4.Flex"
    block_storage_size_in_gbs := 50
    notebook_session_shape_config_details := { ocpus := 4, memory_in_gbs := 16 } }

/-- The `CreateNotebookSessionDetails(...)` request body built at
src/server.py lines 157-166 from the three caller arguments and the
hardcoded config literal. -/
def sessionRequest (project_id compartment_id display_name : String) :
    CreateNotebookSessionDetails :=
  { project_id := project_id
    compartment_id := compartment_id
    display_name := display_name
    notebook_session_config_details := fixedSessionConfig }

/-- `create_notebook_session` (src/server.py lines 140-176): obtains the
signer, builds a `DataScienceClient` (constructor elided, no network call),
issues one create-notebook-session request whose config details carry the
hardcoded shape "VM.Standard.E4.Flex", 50 GB block storage, 4 OCPUs and 16 GB
memory, and shapes the response into a four-entry dictionary.  On any
exception it `print`s one diagnostic (stdout) and re-raises.  The third
component is the trace of creation requests issued to the SDK. -/
def create_notebook_session (b : Backend)
    (project_id compartment_id display_name : String) :
    Except OCIError (List (String × PyValue)) × List LogLine × List CreateNotebookSessionDetails :=
  match b.get_resource_principals_signer with
  | .error e =>
      (.error e, [⟨OutStream.stdout, "Error creating notebook session: " ++ e.msg⟩], [])
  | .ok _signer =>
      match b.create_notebook_session (sessionRequest project_id compartment_id display_name) with
      | .error e =>
          (.error e, [⟨OutStream.stdout, "Error creating notebook session: " ++ e.msg⟩],
           [sessionRequest project_id compartment_id display_name])
      | .ok data =>
          (.ok [("notebook_session_url", .str data.notebook_session_url),
                ("display_name", .str data.display_name),
                ("time_created", .str data.time_created),
                ("session_details", .config data.notebook_session_config_details)],
           [], [sessionRequest project_id compartment_id display_name])

/-- Process-wide state of the server: the authentication mode set once at
startup by `ads.set_auth("resource_principal")` (src/server.py line 22).
No other shared in-process state exists in the source. -/
structure ProcessState where
  authMode : Option String
deriving DecidableEq, Repr

/-- The startup call `ads.set_auth("resource_principal")`. -/
def set_auth (st : ProcessState) : ProcessState :=
  { st with authMode := some "resource_principal" }

/-- A remote tool invocation routed by the FastMCP dispatcher. -/
inductive ToolCall
  | getCompartmentId
  | projectCount (compartment_id : String)
  | createProject (project_name project_description compartment_id : String)
  | modelCount (compartment_id : String)
  | listProjects (compartment_id : String)
  | createNotebookSession (project_id compartment_id display_name : String)
deriving DecidableEq, Repr

/-- The value (or propagated exception) plus emitted output a tool call
produces, by tool. -/
inductive ToolResult
  | compartmentId (r : Except OCIError String × List LogLine)
  | count (r : Except OCIError Nat × List LogLine)
  | projectCreated
      (r : Except OCIError (List (String × String)) × List LogLine × List CreateProjectCall)
  | projectList (r : Except OCIError (List (List (String × String))) × List LogLine)
  | notebookCreated
      (r : Except OCIError (List (String × PyValue)) × List LogLine × List CreateNotebookSessionDetails)

/-- Dispatch of one tool call.  The six handler bodies in the source contain
no read of and no assignment to the module-level auth configuration (or any
other shared in-process state), so the dispatcher threads `ProcessState`
through unchanged and the handler result is computed without consulting it. -/
def dispatch (b : Backend) (st : ProcessState) : ToolCall → ToolResult × ProcessState
  | .getCompartmentId => (.compartmentId (get_compartment_id b), st)
  | .projectCount c => (.count (project_count b c), st)
  | .createProject n d c => (.projectCreated (create_project b n d c), st)
  | .modelCount c => (.count (model_count b c), st)
  | .listProjects c => (.projectList (list_projects b c), st)
  | .createNotebookSession p c dn => (.notebookCreated (create_notebook_session b p c dn), st)

/-- A concrete error used in witnesses and counterexamples. -/
def errBoom : OCIError := ⟨"ServiceError", "boom"⟩

/-- A backend on which every SDK call fails with `errBoom`. -/
def badBackend : Backend :=
  { projectCatalogNew := fun _ => .error errBoom
    modelCatalogNew := fun _ => .error errBoom
    get_resource_principals_signer := .error errBoom
    create_notebook_session := fun _ => .error errBoom }

/-- Two concrete projects for the demo backend. -/
def demoProjects : List ProjectRecord :=
  [⟨"ocid1.datascienceproject.p1", "Churn", "churn modelling"⟩,
   ⟨"ocid1.datascienceproject.p2", "Forecast", "time series"⟩]

/-- A well-behaved project catalog: `len` agrees with the listing, and
`create_project` echoes its arguments into the created project. -/
def demoCatalog : ProjectCatalog :=
  { list_projects := .ok demoProjects
    len := demoProjects.length
    create_project := fun n d c => .ok ⟨n, d, c, [("id", "ocid1.datascienceproject.new")]⟩ }

/-- A catalog whose `len` (7) disagrees with the length of its listing (2),
exercising the two independent SDK quantities `project_count` reads. -/
def skewCatalog : ProjectCatalog :=
  { list_projects := .ok demoProjects
    len := 7
    create_project := fun n d c => .ok ⟨n, d, c, []⟩ }

/-- A fully successful backend built from `demoCatalog`. -/
def demoBackend : Backend :=
  { projectCatalogNew := fun _ => .ok demoCatalog
    modelCatalogNew := fun _ => .ok ⟨.ok [⟨"m1"⟩, ⟨"m2"⟩, ⟨"m3"⟩]⟩
    get_resource_principals_signer := .ok ⟨"ocid1.compartment.demo"⟩
    create_notebook_session := fun dtl =>
      .ok ⟨"https://notebook.example/session", dtl.display_name,
           "2026-10-12T00:00:00Z", dtl.notebook_session_config_details⟩ }

/-- `demoBackend` with the skewed project catalog. -/
def skewBackend : Backend :=
  { demoBackend with projectCatalogNew := fun _ => .ok skewCatalog }

/-- Record built for one project by the `list_projects` marshalling loop. -/
def projectRecordRow (p : ProjectRecord) : List (String × String) :=
  [("project_id", p.id), ("project_name", p.display_name),
   ("project_description", p.description)]

lemma buildRecords_map (ps : List ProjectRecord) :
    buildRecords (ps.map fun p => p.id) (ps.map fun p => p.display_name)
      (ps.map fun p => p.description) = ps.map projectRecordRow := by
  induction ps with
  | nil => rfl
  | cons p ps ih => simp [buildRecords, projectRecordRow, ih]

lemma create_notebook_session_trace (b : Backend) (p c d : String) :
    (create_notebook_session b p c d).2.2 = [] ∨
    (create_notebook_session b p c d).2.2 = [sessionRequest p c d] := by
  unfold create_notebook_session
  cases b.get_resource_principals_signer with
  | error e => exact Or.inl rfl
  | ok s =>
    cases b.create_notebook_session (sessionRequest p c d) with
    | error e => exact Or.inr rfl
    | ok data => exact Or.inr rfl

/-- C2: every create-notebook-session request issued to the SDK, whatever the
caller passed for project id, compartment id and display name, carries the
fixed shape "VM.Standard.E4.Flex", 50 GB block storage, 4 OCPUs and 16 GB
memory; the caller's arguments cannot influence these sizing values. -/
theorem notebook_session_fixed_shape (b : Backend)
    (project_id compartment_id display_name : String)
    (call : CreateNotebookSessionDetails)
    (h : call ∈ (create_notebook_session b project_id compartment_id display_name).2.2) :
    call.notebook_session_config_details.shape = "VM.Standard.E4.Flex" ∧
    call.notebook_session_config_details.block_storage_size_in_gbs = 50 ∧
    call.notebook_session_config_details.notebook_session_shape_config_details.ocpus = 4 ∧
    call.notebook_session_config_details.notebook_session_shape_config_details.memory_in_gbs = 16 := by
  rcases create_notebook_session_trace b project_id compartment_id display_name with ht | ht <;>
    rw [ht] at h
  · simp at h
  · rw [List.mem_singleton] at h
    subst h
    exact ⟨rfl, rfl, rfl, rfl⟩

/-- Witness for C2 at a concrete backend and concrete caller arguments. -/
theorem notebook_session_fixed_shape_witness :
    (sessionRequest "ocid1.datascienceproject.p1" "ocid1.compartment.demo"
        "my notebook").notebook_session_config_details.shape = "VM.Standard.E4.Flex" ∧
    (sessionRequest "ocid1.datascienceproject.p1" "ocid1.compartment.demo"
        "my notebook").notebook_session_config_details.block_storage_size_in_gbs = 50 ∧
    (sessionRequest "ocid1.datascienceproject.p1" "ocid1.compartment.demo"
        "my notebook").notebook_session_config_details.notebook_session_shape_config_details.ocpus = 4 ∧
    (sessionRequest "ocid1.datascienceproject.p1" "ocid1.compartment.demo"
        "my notebook").notebook_session_config_details.notebook_session_shape_config_details.memory_in_gbs = 16 :=
  notebook_session_fixed_shape demoBackend "ocid1.datascienceproject.p1"
    "ocid1.compartment.demo" "my notebook"
    (sessionRequest "ocid1.datascienceproject.p1" "ocid1.compartment.demo" "my notebook")
    (by decide)

/-- C3: when the backend lists `ps`, the result of `list_projects` is exactly
one record per listed project, carrying that project's identifier, display
name and description, in the backend's listing order (the map preserves order
and length; no local sort). -/
theorem list_projects_marshalling (b : Backend) (c : String)
    (cat : ProjectCatalog) (ps : List ProjectRecord)
    (h1 : b.projectCatalogNew c = .ok cat)
    (h2 : cat.list_projects = .ok ps) :
    (list_projects b c).1 = .ok (ps.map projectRecordRow) ∧
    (ps.map projectRecordRow).length = ps.length := by
  refine ⟨?_, by simp⟩
  simp [list_projects, h1, h2, buildRecords_map]

/-- Witness for C3 at the demo backend (two projects). -/
theorem list_projects_marshalling_witness :
    (list_projects demoBackend "ocid1.compartment.demo").1 =
      .ok (demoProjects.map projectRecordRow) ∧
    (demoProjects.map projectRecordRow).length = demoProjects.length :=
  list_projects_marshalling demoBackend "ocid1.compartment.demo"
    demoCatalog demoProjects rfl rfl

/-- C4: for a compartment whose catalog holds N projects (the SDK-consistency
hypothesis `cat.len = ps.length` states that `len(ProjectCatalog)` equals the
number of projects the catalog lists, which the ADS SDK guarantees),
`project_count` returns N. -/
theorem project_count_returns_backend_count (b : Backend) (c : String)
    (N : Nat) (cat : ProjectCatalog) (ps : List ProjectRecord)
    (h1 : b.projectCatalogNew c = .ok cat)
    (h2 : cat.list_projects = .ok ps)
    (hlen : cat.len = ps.length)
    (hN : ps.length = N) :
    (project_count b c).1 = .ok N := by
  simp [project_count, h1, h2, hlen, hN]

/-- Witness for C4 at the demo backend (two projects). -/
theorem project_count_returns_backend_count_witness :
    (project_count demoBackend "ocid1.compartment.demo").1 = .ok 2 :=
  project_count_returns_backend_count demoBackend "ocid1.compartment.demo" 2
    demoCatalog demoProjects rfl rfl rfl rfl

/-- C5: `create_project` issues exactly one creation call to the SDK carrying
the caller's name, description and compartment, and (when the backend's
created project echoes those values, as the simulated backend does) returns a
mapping containing the created project's fields including those three
values. -/
theorem create_project_single_call_and_echo (b : Backend)
    (n d c : String) (cat : ProjectCatalog) (p : CreatedProject)
    (h1 : b.projectCatalogNew c = .ok cat)
    (h2 : cat.create_project n d c = .ok p)
    (hn : p.display_name = n) (hd : p.description = d)
    (hc : p.compartment_id = c) :
    (create_project b n d c).2.2 = [⟨n, d, c⟩] ∧
    (create_project b n d c).1 = .ok p.to_dataframe_to_dict ∧
    ("display_name", n) ∈ p.to_dataframe_to_dict ∧
    ("description", d) ∈ p.to_dataframe_to_dict ∧
    ("compartment_id", c) ∈ p.to_dataframe_to_dict := by
  refine ⟨?_, ?_, ?_, ?_, ?_⟩ <;>
    simp [create_project, h1, h2, CreatedProject.to_dataframe_to_dict, hn, hd, hc]

/-- Witness for C5 at the demo backend with concrete name, description and
compartment. -/
theorem create_project_single_call_and_echo_witness :
    (create_project demoBackend "X" "Y" "C").2.2 = [⟨"X", "Y", "C"⟩] ∧
    (create_project demoBackend "X" "Y" "C").1 =
      .ok (CreatedProject.to_dataframe_to_dict
        ⟨"X", "Y", "C", [("id", "ocid1.datascienceproject.new")]⟩) ∧
    ("display_name", "X") ∈ CreatedProject.to_dataframe_to_dict
        ⟨"X", "Y", "C", [("id", "ocid1.datascienceproject.new")]⟩ ∧
    ("description", "Y") ∈ CreatedProject.to_dataframe_to_dict
        ⟨"X", "Y", "C", [("id", "ocid1.datascienceproject.new")]⟩ ∧
    ("compartment_id", "C") ∈ CreatedProject.to_dataframe_to_dict
        ⟨"X", "Y", "C", [("id", "ocid1.datascienceproject.new")]⟩ :=
  create_project_single_call_and_echo demoBackend "X" "Y" "C" demoCatalog
    ⟨"X", "Y", "C", [("id", "ocid1.datascienceproject.new")]⟩ rfl rfl rfl rfl rfl

/-- C6: a successful `create_notebook_session` returns a mapping with exactly
the four entries notebook_session_url, display_name, time_created and
session_details, whose values are taken from the service's response data
(the last being the full session configuration object the service
returned). -/
theorem create_notebook_session_result_keys (b : Backend) (p c d : String)
    (s : Signer) (data : NotebookSessionData)
    (hs : b.get_resource_principals_signer = .ok s)
    (hc : b.create_notebook_session (sessionRequest p c d) = .ok data) :
    (create_notebook_session b p c d).1 =
      .ok [("notebook_session_url", PyValue.str data.notebook_session_url),
           ("display_name", PyValue.str data.display_name),
           ("time_created", PyValue.str data.time_created),
           ("session_details", PyValue.config data.notebook_session_config_details)] ∧
    [("notebook_session_url", PyValue.str data.notebook_session_url),
     ("display_name", PyValue.str data.display_name),
     ("time_created", PyValue.str data.time_created),
     ("session_details", PyValue.config data.notebook_session_config_details)].map Prod.fst =
      ["notebook_session_url", "display_name", "time_created", "session_details"] := by
  refine ⟨?_, by simp⟩
  simp [create_notebook_session, hs, hc]

/-- Witness for C6 at the demo backend. -/
theorem create_notebook_session_result_keys_witness :
    (create_notebook_session demoBackend "ocid1.datascienceproject.p1"
        "ocid1.compartment.demo" "my notebook").1 =
      .ok [("notebook_session_url", PyValue.str "https://notebook.example/session"),
           ("display_name", PyValue.str "my notebook"),
           ("time_created", PyValue.str "2026-10-12T00:00:00Z"),
           ("session_details", PyValue.config fixedSessionConfig)] ∧
    [("notebook_session_url", PyValue.str "https://notebook.example/session"),
     ("display_name", PyValue.str "my notebook"),
     ("time_created", PyValue.str "2026-10-12T00:00:00Z"),
     ("session_details", PyValue.config fixedSessionConfig)].map Prod.fst =
      ["notebook_session_url", "display_name", "time_created", "session_details"] :=
  create_notebook_session_result_keys demoBackend "ocid1.datascienceproject.p1"
    "ocid1.compartment.demo" "my notebook" ⟨"ocid1.compartment.demo"⟩
    ⟨"https://notebook.example/session", "my notebook", "2026-10-12T00:00:00Z",
     fixedSessionConfig⟩ rfl rfl

/-- C7: for a compartment whose model catalog lists N models, `model_count`
returns N (here the count is the length of the listing itself). -/
theorem model_count_returns_backend_count (b : Backend) (c : String)
    (N : Nat) (mc : ModelCatalog) (ms : List ModelRecord)
    (h1 : b.modelCatalogNew c = .ok mc)
    (h2 : mc.list_models = .ok ms)
    (hN : ms.length = N) :
    (model_count b c).1 = .ok N := by
  simp [model_count, h1, h2, hN]

/-- Witness for C7 at the demo backend (three models). -/
theorem model_count_returns_backend_count_witness :
    (model_count demoBackend "ocid1.compartment.demo").1 = .ok 3 :=
  model_count_returns_backend_count demoBackend "ocid1.compartment.demo" 3
    ⟨.ok [⟨"m1"⟩, ⟨"m2"⟩, ⟨"m3"⟩]⟩ [⟨"m1"⟩, ⟨"m2"⟩, ⟨"m3"⟩] rfl rfl rfl

/-- C8: `get_compartment_id` takes no caller input and returns the
resource-principal signer's `compartment_id` field; a signer/identity error
propagates to the caller unchanged (with no log line emitted). -/
theorem get_compartment_id_contract (b : Backend) :
    (∀ s, b.get_resource_principals_signer = .ok s →
      get_compartment_id b = (.ok s.compartment_id, [])) ∧
    (∀ e, b.get_resource_principals_signer = .error e →
      get_compartment_id b = (.error e, [])) := by
  constructor <;> intro x hx <;> simp [get_compartment_id, hx]

/-- Witness for C8: the demo signer's compartment id is returned, and on the
failing backend the error propagates unchanged. -/
theorem get_compartment_id_contract_witness :
    get_compartment_id demoBackend = (.ok "ocid1.compartment.demo", []) ∧
    get_compartment_id badBackend = (.error errBoom, []) :=
  ⟨(get_compartment_id_contract demoBackend).1 ⟨"ocid1.compartment.demo"⟩ rfl,
   (get_compartment_id_contract badBackend).2 errBoom rfl⟩

/-- C9: dispatching any of the six tools leaves the process-wide state (the
auth configuration set once at startup) unchanged, and the tool's result does
not depend on that state: no handler reads or mutates shared in-process
state. -/
theorem tool_handlers_preserve_process_state
    (b : Backend) (st st2 : ProcessState) (call : ToolCall) :
    (dispatch b st call).2 = st ∧
    (dispatch b st call).1 = (dispatch b st2 call).1 := by
  cases call <;> exact ⟨rfl, rfl⟩

/-- C10: `project_count` returns `len(project_catalog)`, the catalog-object
length, whatever listing `list_projects()` returned — the listing it fetched
only gates success and is otherwise ignored. -/
theorem project_count_uses_catalog_len (b : Backend) (c : String)
    (cat : ProjectCatalog) (ps : List ProjectRecord)
    (h1 : b.projectCatalogNew c = .ok cat)
    (h2 : cat.list_projects = .ok ps) :
    (project_count b c).1 = .ok cat.len := by
  simp [project_count, h1, h2]

/-- Witness for C10 at a backend whose catalog length (7) differs from its
listing length (2): the catalog length is returned. -/
theorem project_count_uses_catalog_len_witness :
    (project_count skewBackend "ocid1.compartment.demo").1 = .ok skewCatalog.len ∧
    skewCatalog.len = 7 ∧ demoProjects.length = 2 :=
  ⟨project_count_uses_catalog_len skewBackend "ocid1.compartment.demo"
      skewCatalog demoProjects rfl rfl, rfl, rfl⟩

/-- C1 counterexample: the claim fails as stated.  On a backend whose SDK
calls all raise, `get_compartment_id` re-raises the exception but emits zero
diagnostic log lines (it has no exception handler), and `project_count`'s
single error diagnostic is written by `print` to standard output, not to
standard error (its only stderr line is the unconditional info line emitted
before the try block). -/
theorem error_log_stream_counterexample :
    get_compartment_id badBackend = (Except.error errBoom, []) ∧
    (project_count badBackend "ocid1.compartment.demo").1 = Except.error errBoom ∧
    (project_count badBackend "ocid1.compartment.demo").2 =
      [⟨OutStream.stderr, "calling project_count tool successfully"⟩,
       ⟨OutStream.stdout, "Error getting project count: boom"⟩] := by
  refine ⟨rfl, rfl, ?_⟩
  decide

/-- C1 (amended): the five handlers that have an exception handler
(project_count, create_project, model_count, list_projects,
create_notebook_session) catch any SDK exception, emit exactly one
diagnostic log line to standard output (via print), and re-raise the
exception unchanged, so the caller receives the original exception type and
message; get_compartment_id has no handler and propagates the exception
unchanged with no diagnostic log line. -/
theorem error_policy_amended (b : Backend)
    (c n d p dn : String) (e : OCIError) :
    (b.get_resource_principals_signer = .error e →
      get_compartment_id b = (.error e, [])) ∧
    (b.projectCatalogNew c = .error e →
      project_count b c = (.error e,
        [⟨OutStream.stderr, "calling project_count tool successfully"⟩,
         ⟨OutStream.stdout, "Error getting project count: " ++ e.msg⟩])) ∧
    (∀ cat, b.projectCatalogNew c = .ok cat → cat.list_projects = .error e →
      project_count b c = (.error e,
        [⟨OutStream.stderr, "calling project_count tool successfully"⟩,
         ⟨OutStream.stdout, "Error getting project count: " ++ e.msg⟩])) ∧
    (b.projectCatalogNew c = .error e →
      create_project b n d c = (.error e,
        [⟨OutStream.stdout, "Error getting project count: " ++ e.msg⟩], [])) ∧
    (∀ cat, b.projectCatalogNew c = .ok cat →
      cat.create_project n d c = .error e →
      create_project b n d c = (.error e,
        [⟨OutStream.stdout, "Error getting project count: " ++ e.msg⟩],
        [⟨n, d, c⟩])) ∧
    (b.modelCatalogNew c = .error e →
      model_count b c = (.error e,
        [⟨OutStream.stdout, "Error getting model count: " ++ e.msg⟩])) ∧
    (∀ mc, b.modelCatalogNew c = .ok mc → mc.list_models = .error e →
      model_count b c = (.error e,
        [⟨OutStream.stdout, "Error getting model count: " ++ e.msg⟩])) ∧
    (b.projectCatalogNew c = .error e →
      list_projects b c = (.error e,
        [⟨OutStream.stdout, "Error getting project list: " ++ e.msg⟩])) ∧
    (∀ cat, b.projectCatalogNew c = .ok cat → cat.list_projects = .error e →
      list_projects b c = (.error e,
        [⟨OutStream.stdout, "Error getting project list: " ++ e.msg⟩])) ∧
    (b.get_resource_principals_signer = .error e →
      create_notebook_session b p c dn = (.error e,
        [⟨OutStream.stdout, "Error creating notebook session: " ++ e.msg⟩], [])) ∧
    (∀ s, b.get_resource_principals_signer = .ok s →
      b.create_notebook_session (sessionRequest p c dn) = .error e →
      create_notebook_session b p c dn = (.error e,
        [⟨OutStream.stdout, "Error creating notebook session: " ++ e.msg⟩],
        [sessionRequest p c dn])) := by
  refine ⟨fun h1 => by simp [get_compartment_id, h1],
    fun h1 => by simp [project_count, h1],
    fun cat h1 h2 => by simp [project_count, h1, h2],
    fun h1 => by simp [create_project, h1],
    fun cat h1 h2 => by simp [create_project, h1, h2],
    fun h1 => by simp [model_count, h1],
    fun mc h1 h2 => by simp [model_count, h1, h2],
    fun h1 => by simp [list_projects, h1],
    fun cat h1 h2 => by simp [list_projects, h1, h2],
    fun h1 => by simp [create_notebook_session, h1],
    fun s h1 h2 => by simp [create_notebook_session, h1, h2]⟩

/-- Witness for the amended C1 on the all-failing backend: project_count
re-raises `errBoom` after one stdout diagnostic, and get_compartment_id
re-raises it with no diagnostic. -/
theorem error_policy_amended_witness :
    project_count badBackend "c" = (.error errBoom,
      [⟨OutStream.stderr, "calling project_count tool successfully"⟩,
       ⟨OutStream.stdout, "Error getting project count: " ++ errBoom.msg⟩]) ∧
    get_compartment_id badBackend = (.error errBoom, []) :=
  ⟨(error_policy_amended badBackend "c" "n" "d" "p" "dn" errBoom).2.1 rfl,
   (error_policy_amended badBackend "c" "n" "d" "p" "dn" errBoom).1 rfl⟩
